import Mathlib

/-!
Shallow embedding of the Sony IMX585 V4L2 sensor driver (src/imx585.c) and
proofs about its timing/exposure model, control handlers, format negotiation
and streaming state machine.

Machine integers are modelled as `Nat`; where the C code masks or truncates
(`& ~1u` on u32, storing a u64 into a u16), the embedding performs the same
masking explicitly.
-/

/- Register addresses and timing constants from the top of imx585.c. -/

def IMX585_REG_MODE_SELECT : Nat := 0x3000

def IMX585_REG_VMAX : Nat := 0x3028

def IMX585_VMAX_MAX : Nat := 0xfffff

def IMX585_VMAX_DEFAULT : Nat := 2250

def IMX585_REG_HMAX : Nat := 0x302C

def IMX585_HMAX_MAX : Nat := 0xffff

def IMX585_REG_SHR : Nat := 0x3050

def IMX585_SHR_MIN : Nat := 8

def IMX585_SHR_MIN_CLEARHDR : Nat := 10

def IMX585_EXPOSURE_MIN : Nat := 2

def IMX585_EXPOSURE_STEP : Nat := 1

def IMX585_EXPOSURE_DEFAULT : Nat := 1000

def IMX585_PIXEL_RATE : Nat := 74250000

def IMX585_REG_FDG_SEL0 : Nat := 0x3030

def IMX585_ANA_GAIN_MIN : Nat := 0

def IMX585_ANA_GAIN_MIN_HGC : Nat := 34

def IMX585_ANA_GAIN_MAX_HDR : Nat := 80

def IMX585_ANA_GAIN_MAX_NORMAL : Nat := 240

def IMX585_ANA_GAIN_STEP : Nat := 1

/- Media-bus format codes, values from the kernel's media-bus-format.h
(the driver only compares them for equality). -/

def MEDIA_BUS_FMT_SRGGB12_1X12 : Nat := 0x3012

def MEDIA_BUS_FMT_SGRBG12_1X12 : Nat := 0x3011

def MEDIA_BUS_FMT_SGBRG12_1X12 : Nat := 0x3010

def MEDIA_BUS_FMT_SBGGR12_1X12 : Nat := 0x3008

def MEDIA_BUS_FMT_SRGGB16_1X16 : Nat := 0x3020

def MEDIA_BUS_FMT_SGRBG16_1X16 : Nat := 0x301f

def MEDIA_BUS_FMT_SGBRG16_1X16 : Nat := 0x301e

def MEDIA_BUS_FMT_SBGGR16_1X16 : Nat := 0x301d

def MEDIA_BUS_FMT_Y12_1X12 : Nat := 0x2013

def MEDIA_BUS_FMT_Y16_1X16 : Nat := 0x202e

/-- Table `HMAX_table_4lane_4K` (imx585.c lines 185-194): min HMAX for the
4-lane 4K full-resolution mode, indexed by link frequency. -/
def HMAX_table_4lane_4K : List Nat := [1584, 1320, 1100, 792, 660, 550, 440, 396]

/-- The C expression `x & ~1u` on a u32 value, embedded as a `Nat` bitwise
AND with the 32-bit mask 0xFFFFFFFE. -/
def and_not_one_u32 (x : Nat) : Nat := x &&& 0xFFFFFFFE

/-- Kernel `clamp(val, lo, hi)`: `min(max(val, lo), hi)`. -/
def c_clamp (v lo hi : Nat) : Nat := min (max v lo) hi

/-- A V4L2 integer control as the driver observes it: range, step, default
and current value. -/
structure V4l2Ctrl where
  min : Nat
  max : Nat
  step : Nat
  dflt : Nat
  cur : Nat
deriving DecidableEq

/-- Modelled from the spec: the V4L2 control-framework helper
`__v4l2_ctrl_modify_range` (external collaborator, not part of this
repository). It installs the new range/step/default of an integer control
and reclamps the control's current value into the new range ("whenever
`vmax` changes, exposure's range must be recomputed and current exposure
reclamped"). -/
def v4l2_ctrl_modify_range (c : V4l2Ctrl) (mn mx st df : Nat) : V4l2Ctrl :=
  { min := mn, max := mx, step := st, dflt := df, cur := c_clamp c.cur mn mx }

/-- Modelled from the spec: the V4L2 control-framework helper
`__v4l2_ctrl_s_ctrl` (external collaborator, not part of this repository)
sets a control's current value, clamped into the control's range. The
nested dispatch into the driver's own `s_ctrl` callback is the powered-down
path here (no hardware side effects). -/
def v4l2_ctrl_s_ctrl (c : V4l2Ctrl) (v : Nat) : V4l2Ctrl :=
  { c with cur := c_clamp v c.min c.max }

/-- One entry of `supported_modes` (struct imx585_mode): frame geometry,
per-mode HMAX divisor and the mutable timing bounds. The crop rectangle and
register list are not needed by any claim and are omitted. -/
structure Imx585Mode where
  width : Nat
  height : Nat
  hmax_div : Nat
  min_HMAX : Nat
  min_VMAX : Nat
  default_HMAX : Nat
  default_VMAX : Nat
deriving DecidableEq

/-- The static mode table `supported_modes` (imx585.c lines 975-1016):
1080p 2x2 binned and 4K full pixel, both with `hmax_div = 1`. -/
def supported_modes : List Imx585Mode :=
  [{ width := 1928, height := 1090, hmax_div := 1, min_HMAX := 366,
     min_VMAX := IMX585_VMAX_DEFAULT, default_HMAX := 366,
     default_VMAX := IMX585_VMAX_DEFAULT },
   { width := 3856, height := 2180, hmax_div := 1, min_HMAX := 550,
     min_VMAX := IMX585_VMAX_DEFAULT, default_HMAX := 550,
     default_VMAX := IMX585_VMAX_DEFAULT }]

/-- The format-code tables (imx585.c lines 1030-1055). -/
def codes_normal : List Nat :=
  [MEDIA_BUS_FMT_SRGGB12_1X12, MEDIA_BUS_FMT_SGRBG12_1X12,
   MEDIA_BUS_FMT_SGBRG12_1X12, MEDIA_BUS_FMT_SBGGR12_1X12]

def codes_clearhdr : List Nat :=
  [MEDIA_BUS_FMT_SRGGB16_1X16, MEDIA_BUS_FMT_SGRBG16_1X16,
   MEDIA_BUS_FMT_SGBRG16_1X16, MEDIA_BUS_FMT_SBGGR16_1X16,
   MEDIA_BUS_FMT_SRGGB12_1X12, MEDIA_BUS_FMT_SGRBG12_1X12,
   MEDIA_BUS_FMT_SGBRG12_1X12, MEDIA_BUS_FMT_SBGGR12_1X12]

def mono_codes : List Nat := [MEDIA_BUS_FMT_Y16_1X16, MEDIA_BUS_FMT_Y12_1X12]

/-- Device state (struct imx585): link configuration, format flags, the
mode table (a mutable global in the C, owned here by the state), the index
of the current mode (the C keeps a pointer into the table), the live
HMAX/VMAX mirrors, streaming bookkeeping and the V4L2 controls with their
activation/grab flags. -/
structure Imx585 where
  lane_count : Nat
  link_freq_idx : Fin 8
  mono : Bool
  clear_HDR : Bool
  hgc : Bool
  sync_mode : Nat
  fmt_code : Nat
  modes : List Imx585Mode
  modeIdx : Nat
  HMAX : Nat
  VMAX : Nat
  streaming : Bool
  common_regs_written : Bool
  exposure : V4l2Ctrl
  gain : V4l2Ctrl
  vblank : V4l2Ctrl
  hblank : V4l2Ctrl
  pixel_rate_ctrl : V4l2Ctrl
  hgc_active : Bool
  datasel_th_active : Bool
  datasel_bk_active : Bool
  gdc_th_active : Bool
  gdc_exp_h_active : Bool
  gdc_exp_l_active : Bool
  hdr_gain_active : Bool
  vflip_grabbed : Bool
  hflip_grabbed : Bool
  hdr_grabbed : Bool
deriving DecidableEq

/-- The mode the device's `mode` pointer currently designates (an entry of
the mode table). -/
def Imx585.mode (s : Imx585) : Imx585Mode :=
  s.modes.getD s.modeIdx
    { width := 0, height := 0, hmax_div := 1, min_HMAX := 0, min_VMAX := 0,
      default_HMAX := 0, default_VMAX := 0 }

/-- Embedding of `imx585_update_hmax` (imx585.c lines 1488-1514): recomputes
every mode's minimum/default HMAX from the per-link-frequency base table,
the lane count and the per-mode divisor, and every mode's minimum/default
VMAX from the HDR flag. It reads only `link_freq_idx`, `lane_count` and
`clear_HDR` from the device state and rewrites the mode table in place. -/
def imx585_update_hmax (s : Imx585) : Imx585 :=
  let base_4lane := HMAX_table_4lane_4K.getD s.link_freq_idx.val 0
  let lane_scale := if s.lane_count = 2 then 2 else 1
  let factor := base_4lane * lane_scale
  let hdr_factor := if s.clear_HDR then 2 else 1
  { s with modes := s.modes.map fun m =>
      let h := factor / m.hmax_div
      let v := IMX585_VMAX_DEFAULT * hdr_factor
      { m with min_HMAX := h, default_HMAX := h, min_VMAX := v, default_VMAX := v } }

/-- Embedding of `imx585_set_framing_limits` (imx585.c lines 1448-1486):
resets the live HMAX/VMAX to the current mode's defaults and republishes
the pixel-rate, hblank, vblank and exposure control ranges. In the C the
u64 subtractions `default_hblank - width` and `max_hblank - width` can in
principle wrap; for every reachable mode they do not, and `Nat`
subtraction truncates at zero instead. The exposure range is installed
with `IMX585_SHR_MIN_CLEARHDR` unconditionally (line 1481). -/
def imx585_set_framing_limits (s : Imx585) : Imx585 :=
  let mode := s.mode
  let s := { s with VMAX := mode.default_VMAX, HMAX := mode.default_HMAX }
  let pixel_rate := mode.width * IMX585_PIXEL_RATE / mode.min_HMAX
  let pr1 := v4l2_ctrl_modify_range s.pixel_rate_ctrl pixel_rate pixel_rate 1 pixel_rate
  let s := { s with pixel_rate_ctrl := pr1 }
  let default_hblank := mode.default_HMAX * pixel_rate / IMX585_PIXEL_RATE - mode.width
  let max_hblank := IMX585_HMAX_MAX * pixel_rate / IMX585_PIXEL_RATE - mode.width
  let hblank1 := v4l2_ctrl_modify_range s.hblank 0 max_hblank 1 default_hblank
  let s := { s with hblank := v4l2_ctrl_s_ctrl hblank1 default_hblank }
  let vblank1 := v4l2_ctrl_modify_range s.vblank (mode.min_VMAX - mode.height) (IMX585_VMAX_MAX - mode.height) 1 (mode.default_VMAX - mode.height)
  let s := { s with vblank := v4l2_ctrl_s_ctrl vblank1 (mode.default_VMAX - mode.height) }
  let exposure1 := v4l2_ctrl_modify_range s.exposure IMX585_EXPOSURE_MIN (s.VMAX - IMX585_SHR_MIN_CLEARHDR) 1 IMX585_EXPOSURE_DEFAULT
  { s with exposure := exposure1 }

/-- Embedding of `imx585_update_gain_limits` (imx585.c lines 1430-1446):
republishes the analogue-gain range from the HCG and HDR flags and clamps
the current gain into it. -/
def imx585_update_gain_limits (s : Imx585) : Imx585 :=
  let hcg_on := s.hgc
  let clear_hdr := s.clear_HDR
  let mn := if hcg_on then IMX585_ANA_GAIN_MIN_HGC else IMX585_ANA_GAIN_MIN
  let mx := if clear_hdr then IMX585_ANA_GAIN_MAX_HDR else IMX585_ANA_GAIN_MAX_NORMAL
  let cur := s.gain.cur
  let gain := v4l2_ctrl_modify_range s.gain mn mx IMX585_ANA_GAIN_STEP (c_clamp cur mn mx)
  let gain := if cur < mn ∨ mx < cur then v4l2_ctrl_s_ctrl gain (c_clamp cur mn mx) else gain
  { s with gain := gain }

/-- Embedding of `imx585_get_format_code` (imx585.c lines 1352-1376). The C
scans the applicable code table and returns `table[i]` where `i` is the loop
index after the scan; when the requested code matches no entry the loop
leaves `i` equal to the table's length and the C reads past the end of the
array. `List.findIdx` has exactly the C loop's semantics (length on no
match) and the out-of-bounds read is modelled as `none`. -/
def imx585_get_format_code (mono clear_HDR : Bool) (code : Nat) : Option Nat :=
  if mono then
    mono_codes.get? (mono_codes.findIdx (fun c => c == code))
  else if clear_HDR then
    codes_clearhdr.get? (codes_clearhdr.findIdx (fun c => c == code))
  else
    codes_normal.get? (codes_normal.findIdx (fun c => c == code))

/-- Embedding of `get_mode_table` (imx585.c lines 1177-1217): the candidate
mode list for a `(mono, clear_HDR, code)` combination; the empty list models
`*mode_list = NULL, *num_modes = 0`. -/
def get_mode_table (mono clear_HDR : Bool) (code : Nat) (modes : List Imx585Mode) :
    List Imx585Mode :=
  if mono then
    let r := if code = MEDIA_BUS_FMT_Y16_1X16 ∧ clear_HDR then modes else []
    if code = MEDIA_BUS_FMT_Y12_1X12 then modes else r
  else
    if code = MEDIA_BUS_FMT_SRGGB16_1X16 ∨ code = MEDIA_BUS_FMT_SGRBG16_1X16 ∨
       code = MEDIA_BUS_FMT_SGBRG16_1X16 ∨ code = MEDIA_BUS_FMT_SBGGR16_1X16 ∨
       code = MEDIA_BUS_FMT_SRGGB12_1X12 ∨ code = MEDIA_BUS_FMT_SGRBG12_1X12 ∨
       code = MEDIA_BUS_FMT_SGBRG12_1X12 ∨ code = MEDIA_BUS_FMT_SBGGR12_1X12 then
      modes
    else []

/-- Distance used by the nearest-size match: sum of absolute width and
height differences, as in the kernel helper. -/
def nearest_err (m : Imx585Mode) (w h : Nat) : Nat :=
  (max m.width w - min m.width w) + (max m.height h - min m.height h)

/-- Modelled from the spec: the kernel helper `v4l2_find_nearest_size`
(external collaborator, not part of this repository) picks the list entry
whose size is nearest to the requested width/height, keeping a later entry
on ties, and yields NULL - here `none` - on an empty list. This version
returns the index of the chosen entry. -/
def v4l2_find_nearest_idx (ms : List Imx585Mode) (w h : Nat) : Option Nat :=
  (ms.enum.foldl
    (fun (acc : Option (Nat × Nat)) (p : Nat × Imx585Mode) =>
      let e := nearest_err p.2 w h
      match acc with
      | none => some (p.1, e)
      | some (bi, be) => if e ≤ be then some (p.1, e) else some (bi, be))
    none).map Prod.fst

/-- Embedding of the `V4L2_CID_WIDE_DYNAMIC_RANGE` branch of
`imx585_set_ctrl` (imx585.c lines 1531-1555), which runs regardless of the
power state: flip `clear_HDR`, activate/deactivate the HDR-only controls
and the HCG control, republish the gain range, reselect the nearest mode
for the new format class, recompute the HMAX/VMAX bounds and reapply the
framing limits. The 12-bit default code (`Y12` for mono, `SRGGB12`
otherwise) is always present in its code table, so the format-code lookup
cannot fall off the table here (`getD 0` is unreachable). -/
def imx585_set_ctrl_wdr (s : Imx585) (v : Bool) : Imx585 :=
  if s.clear_HDR = v then s
  else
    let s := { s with clear_HDR := v, datasel_th_active := v, datasel_bk_active := v, gdc_th_active := v, gdc_exp_h_active := v, gdc_exp_l_active := v, hdr_gain_active := v, hgc_active := !v }
    let s := imx585_update_gain_limits s
    let code :=
      if s.mono then imx585_get_format_code s.mono s.clear_HDR MEDIA_BUS_FMT_Y12_1X12
      else imx585_get_format_code s.mono s.clear_HDR MEDIA_BUS_FMT_SRGGB12_1X12
    let code := code.getD 0
    let mlist := get_mode_table s.mono s.clear_HDR code s.modes
    let midx := v4l2_find_nearest_idx mlist s.mode.width s.mode.height
    let s := { s with modeIdx := midx.getD s.modeIdx }
    let s := imx585_update_hmax s
    imx585_set_framing_limits s

/-- Observable actions of a powered control write, in program order: the
publication of a new exposure range through the control framework, and an
N-byte register write. -/
inductive Ev where
  | exposureRange (mn mx cur : Nat)
  | regWrite (addr len value : Nat)
deriving DecidableEq

/-- Embedding of the `V4L2_CID_EXPOSURE` branch of `imx585_set_ctrl`
(imx585.c lines 1566-1581). When the device is not actively powered the
hardware write is skipped (`pm_runtime_get_if_in_use` returns 0). The SHR
register value is `(VMAX - exposure) & ~1u` computed on u32. -/
def imx585_set_ctrl_exposure (s : Imx585) (e : Nat) (powered : Bool) :
    Imx585 × List Ev :=
  if powered = false then (s, [])
  else
    let shr := and_not_one_u32 (s.VMAX - e)
    (s, [Ev.regWrite IMX585_REG_SHR 3 shr])

/-- Embedding of the `V4L2_CID_VBLANK` branch of `imx585_set_ctrl`
(imx585.c lines 1611-1642): compute the new VMAX as
`(mode.height + vblank) & ~1u`, reclamp and republish the exposure range,
and only then issue the 3-byte VMAX register write. The event list records
that order. -/
def imx585_set_ctrl_vblank (s : Imx585) (v : Nat) (powered : Bool) :
    Imx585 × List Ev :=
  if powered = false then (s, [])
  else
    let mode := s.mode
    let minSHR := if s.clear_HDR then IMX585_SHR_MIN_CLEARHDR else IMX585_SHR_MIN
    let vmax := and_not_one_u32 (mode.height + v)
    let current_exposure := c_clamp s.exposure.cur IMX585_EXPOSURE_MIN (vmax - minSHR)
    let exposure :=
      v4l2_ctrl_modify_range s.exposure IMX585_EXPOSURE_MIN (vmax - minSHR) 1
        current_exposure
    ({ s with VMAX := vmax, exposure := exposure },
     [Ev.exposureRange IMX585_EXPOSURE_MIN (vmax - minSHR) exposure.cur,
      Ev.regWrite IMX585_REG_VMAX 3 vmax])

/-- Embedding of the `V4L2_CID_HBLANK` branch of `imx585_set_ctrl`
(imx585.c lines 1644-1664): recompute the pixel-rate proxy from the current
mode, derive HMAX from the requested horizontal blanking, store it in the
u16 `HMAX` field and issue the 2-byte register write (both truncate to 16
bits, modelled by the explicit `% 2 ^ 16`). -/
def imx585_set_ctrl_hblank (s : Imx585) (h : Nat) (powered : Bool) :
    Imx585 × List Ev :=
  if powered = false then (s, [])
  else
    let mode := s.mode
    let pixel_rate := mode.width * IMX585_PIXEL_RATE / mode.min_HMAX
    let hmax := (mode.width + h) * IMX585_PIXEL_RATE / pixel_rate
    ({ s with HMAX := hmax % 2 ^ 16 },
     [Ev.regWrite IMX585_REG_HMAX 2 (hmax % 2 ^ 16)])

/-- A requested pad format (the fields of `v4l2_subdev_format.format` used
by the driver at the image pad). -/
structure PadFormat where
  width : Nat
  height : Nat
  code : Nat
deriving DecidableEq

/-- Embedding of `imx585_set_pad_format` for the image pad in ACTIVE mode
(imx585.c lines 2015-2063). Yields `none` when `imx585_get_format_code`
reads past its code table (undefined behavior in the C). Otherwise yields
the C return value, the index of the selected mode (`none` models
`v4l2_find_nearest_size` returning NULL on an empty candidate list, which
the C then dereferences in `imx585_update_image_pad_format`), and the
updated device state. The C applies `imx585_set_framing_limits` only when
the mode or the format code actually changed. -/
def imx585_set_pad_format (s : Imx585) (fmt : PadFormat) :
    Option (Int × Option Nat × Imx585) :=
  match imx585_get_format_code s.mono s.clear_HDR fmt.code with
  | none => none
  | some code =>
    let mlist := get_mode_table s.mono s.clear_HDR code s.modes
    match v4l2_find_nearest_idx mlist fmt.width fmt.height with
    | none => some (0, none, s)
    | some i =>
      let s1 :=
        if s.modeIdx ≠ i ∨ s.fmt_code ≠ code then
          imx585_set_framing_limits { s with modeIdx := i, fmt_code := code }
        else s
      some (0, some i, s1)

/-- The error-checked stages of `imx585_start_streaming` (imx585.c lines
2081-2202): the common-register block, the mode-specific register list, the
ClearHDR or normal common block, the bulk control application
(`__v4l2_ctrl_handler_setup`) and the final streaming-mode-select write.
The writes whose return value the C ignores (INCK/DATARATE/LANEMODE/BIN,
sync-direction, gradation-compression, digital clamp, XMSTA) cannot abort
the sequence and are not failure points. -/
inductive StreamStep where
  | commonRegs
  | modeRegs
  | hdrRegs
  | normalRegs
  | ctrlSetup
  | modeSelect
deriving DecidableEq

/-- Embedding of `imx585_start_streaming` (imx585.c lines 2081-2202),
parameterized by a failure oracle giving each checked stage's error, if
any (`none` = the writes of that stage succeed). Returns the state and the
function's return value. Of the device state only `common_regs_written`
is mutated: it is set once the common-register block has been written
successfully, before the later stages run. The register-level effects of
the bulk control application are those of the individual control handlers
(modelled separately) and are not tracked here; only its return code
matters to this function's control flow. -/
def imx585_start_streaming (s : Imx585) (fail : StreamStep → Option Int) :
    Imx585 × Int :=
  let step1 : Imx585 × Option Int :=
    if s.common_regs_written then (s, none)
    else
      match fail .commonRegs with
      | some e => (s, some e)
      | none => ({ s with common_regs_written := true }, none)
  match step1 with
  | (s1, some e) => (s1, e)
  | (s1, none) =>
    match fail .modeRegs with
    | some e => (s1, e)
    | none =>
      match (if s1.clear_HDR then fail .hdrRegs else fail .normalRegs) with
      | some e => (s1, e)
      | none =>
        match fail .ctrlSetup with
        | some e => (s1, e)
        | none =>
          match fail .modeSelect with
          | some e => (s1, e)
          | none => (s1, 0)

/-- Embedding of `imx585_set_stream` (imx585.c lines 2218-2266),
parameterized by the outcome of `pm_runtime_get_sync` and the
register-write failure oracle of the enable sequence. The result carries
the new state, the return value, and how many power references the call
took (`pm_runtime_get_sync`) and released (`pm_runtime_put_noidle` /
`pm_runtime_put`). A failed `pm_runtime_get_sync` still takes the
reference, hence the `put_noidle` on that path. -/
def imx585_set_stream (s : Imx585) (enable : Bool) (pmGetErr : Option Int)
    (fail : StreamStep → Option Int) : Imx585 × Int × Nat × Nat :=
  if s.streaming = enable then (s, 0, 0, 0)
  else if enable then
    match pmGetErr with
    | some e => (s, e, 1, 1)
    | none =>
      match imx585_start_streaming s fail with
      | (s1, ret) =>
        if ret ≠ 0 then (s1, ret, 1, 1)
        else
          ({ s1 with streaming := enable, vflip_grabbed := enable, hflip_grabbed := enable, hdr_grabbed := enable }, 0, 1, 0)
  else
    ({ s with streaming := enable, vflip_grabbed := enable, hflip_grabbed := enable, hdr_grabbed := enable }, 0, 0, 1)

/-- Embedding of `imx585_power_off` (imx585.c lines 2302-2316): of the
modelled state it resets exactly the `common_regs_written` flag, forcing
reprogramming of the common registers on the next power-up. -/
def imx585_power_off (s : Imx585) : Imx585 :=
  { s with common_regs_written := false }

/-- An operation of the power/streaming lifecycle, for trace reasoning:
a power-off, or a streaming-enable attempt with its failure oracle. -/
inductive DevOp where
  | powerOff
  | startStream (fail : StreamStep → Option Int)

def DevOp.isStart : DevOp → Bool
  | .powerOff => false
  | .startStream _ => true

/-- Whether the operation's common-register block write would succeed. -/
def DevOp.commonOk : DevOp → Prop
  | .powerOff => True
  | .startStream fail => fail .commonRegs = none

/-- Run a list of lifecycle operations over the device state. -/
def runDev (s : Imx585) : List DevOp → Imx585
  | [] => s
  | .powerOff :: rest => runDev (imx585_power_off s) rest
  | .startStream fail :: rest => runDev (imx585_start_streaming s fail).1 rest

/-- How many times the common register block gets written while running the
operations: `imx585_start_streaming` attempts it exactly when
`common_regs_written` is false on entry. -/
def commonWriteCount (s : Imx585) : List DevOp → Nat
  | [] => 0
  | .powerOff :: rest => commonWriteCount (imx585_power_off s) rest
  | .startStream fail :: rest =>
    (if s.common_regs_written then 0 else 1) +
      commonWriteCount (imx585_start_streaming s fail).1 rest

/-- Zero-filled mode record, used as the out-of-range default for list
indexing (the C dereferences a pointer and has no such default; all indexed
accesses in the proofs stay in range). -/
def mode0 : Imx585Mode :=
  { width := 0, height := 0, hmax_div := 1, min_HMAX := 0, min_VMAX := 0,
    default_HMAX := 0, default_VMAX := 0 }

/-- A concrete device state: color sensor, 4 lanes, 891 MHz link, HDR off,
the static mode table, current mode 1080p, controls at their power-on
defaults. -/
def init_state : Imx585 :=
  { lane_count := 4, link_freq_idx := 5, mono := false, clear_HDR := false,
    hgc := false, sync_mode := 0, fmt_code := MEDIA_BUS_FMT_SRGGB12_1X12,
    modes := supported_modes, modeIdx := 0, HMAX := 366, VMAX := 2250,
    streaming := false, common_regs_written := false,
    exposure := { min := 2, max := 2240, step := 1, dflt := 1000, cur := 1000 },
    gain := { min := 0, max := 240, step := 1, dflt := 0, cur := 0 },
    vblank := { min := 1160, max := 1047485, step := 1, dflt := 1160, cur := 1160 },
    hblank := { min := 0, max := 23715, step := 1, dflt := 0, cur := 0 },
    pixel_rate_ctrl := { min := 391184426, max := 391184426, step := 1, dflt := 391184426, cur := 391184426 },
    hgc_active := true, datasel_th_active := false, datasel_bk_active := false,
    gdc_th_active := false, gdc_exp_h_active := false, gdc_exp_l_active := false,
    hdr_gain_active := false, vflip_grabbed := false, hflip_grabbed := false,
    hdr_grabbed := false }

/-- A concrete state with the high-conversion-gain path enabled and HDR
off: `hgc = true`, gain range `[34, 240]`, current gain 100. -/
def hcg_state : Imx585 :=
  { init_state with hgc := true, gain := { min := 34, max := 240, step := 1, dflt := 0, cur := 100 } }

/-- A concrete mono-sensor state with ClearHDR disabled. -/
def mono_state : Imx585 :=
  { init_state with mono := true, fmt_code := MEDIA_BUS_FMT_Y12_1X12 }

/-- Failure oracle that fails the mode-register write with -5 (-EIO). -/
def fail_modeRegs : StreamStep → Option Int :=
  fun st => if st = StreamStep.modeRegs then some (-5) else none

/-- Failure oracle under which every checked register write succeeds. -/
def ok_oracle : StreamStep → Option Int := fun _ => none

/-- A concrete reachable device state with 2 data lanes at the 297 MHz
link frequency, after the bound recompute: the current (FHD, width 1928)
mode has `min_HMAX = 1584 * 2 = 3168`, larger than its width. -/
def fhd_2lane_state : Imx585 :=
  imx585_update_hmax { init_state with lane_count := 2, link_freq_idx := 0 }

/-- Characterization of `x & ~1u` for in-range u32 values: it clears the low
bit, i.e. rounds down to the nearest even number. -/
theorem and_not_one_u32_eq (x : Nat) (hx : x < 2 ^ 32) :
    and_not_one_u32 x = x - x % 2 := by
  have hsub : x - x % 2 = 2 * (x / 2) := by omega
  rw [hsub]
  apply Nat.eq_of_testBit_eq
  intro i
  rw [and_not_one_u32, Nat.testBit_land]
  cases i with
  | zero =>
    have h1 : Nat.testBit 0xFFFFFFFE 0 = false := by decide
    have h2 : Nat.testBit (2 * (x / 2)) 0 = false := by
      rw [Nat.testBit_zero]
      simp [Nat.mul_mod_right]
    rw [h1, h2, Bool.and_false]
  | succ i =>
    have hR : Nat.testBit (2 * (x / 2)) (i + 1) = Nat.testBit (x / 2) i := by
      rw [Nat.testBit_succ, Nat.mul_div_cancel_left _ (by norm_num : (0:Nat) < 2)]
    have hX : Nat.testBit x (i + 1) = Nat.testBit (x / 2) i := by
      rw [Nat.testBit_succ]
    rw [hR, hX]
    by_cases h : i + 1 < 32
    · have hm : Nat.testBit 0xFFFFFFFE (i + 1) = true := by
        have hall : ∀ j, j < 32 → 1 ≤ j → Nat.testBit 0xFFFFFFFE j = true := by decide
        exact hall (i + 1) h (by omega)
      rw [hm, Bool.and_true]
    · have hx2 : x / 2 < 2 ^ i := by
        have h32 : (2 : Nat) ^ 32 ≤ 2 ^ (i + 1) := Nat.pow_le_pow_right (by norm_num) (by omega)
        have : x < 2 ^ (i + 1) := lt_of_lt_of_le hx h32
        rw [pow_succ] at this
        omega
      have hfalse : Nat.testBit (x / 2) i = false := Nat.testBit_lt_two_pow hx2
      rw [hfalse, Bool.false_and]

/-- C1: for every supported configuration (lane count 2 or 4, any of the 8
link frequencies, HDR on or off), `imx585_update_hmax` gives every mode of
the table `min_HMAX = HMAX_table_4lane_4K[link_freq_idx] * lane_scale /
hmax_div` and `min_VMAX = IMX585_VMAX_DEFAULT * hdr_factor`; consequently
every mode's `min_HMAX` is positive and `min_VMAX` is 2250 or 4500, the
2-lane `min_HMAX` is exactly double the 4-lane one at the same link
frequency, and the recomputation depends on nothing but the three inputs
and the mode table. -/
theorem imx585_update_hmax_bounds (s : Imx585)
    (hmodes : s.modes = supported_modes)
    (hlane : s.lane_count = 2 ∨ s.lane_count = 4) :
    (∀ i, i < supported_modes.length →
       ((imx585_update_hmax s).modes.getD i mode0).min_HMAX =
         HMAX_table_4lane_4K.getD s.link_freq_idx.val 0 *
           (if s.lane_count = 2 then 2 else 1) /
           (supported_modes.getD i mode0).hmax_div ∧
       ((imx585_update_hmax s).modes.getD i mode0).min_VMAX =
         IMX585_VMAX_DEFAULT * (if s.clear_HDR then 2 else 1)) ∧
    (∀ m' ∈ (imx585_update_hmax s).modes,
       0 < m'.min_HMAX ∧ (m'.min_VMAX = 2250 ∨ m'.min_VMAX = 4500)) ∧
    (∀ i,
       ((imx585_update_hmax { s with lane_count := 2 }).modes.getD i mode0).min_HMAX =
         2 * ((imx585_update_hmax { s with lane_count := 4 }).modes.getD i mode0).min_HMAX) ∧
    (∀ t : Imx585, t.lane_count = s.lane_count → t.link_freq_idx = s.link_freq_idx →
       t.clear_HDR = s.clear_HDR → t.modes = s.modes →
       (imx585_update_hmax t).modes = (imx585_update_hmax s).modes) := by
  have hbase : 396 ≤ HMAX_table_4lane_4K.getD s.link_freq_idx.val 0 := by
    have hall : ∀ j : Fin 8, 396 ≤ HMAX_table_4lane_4K.getD j.val 0 := by decide
    exact hall s.link_freq_idx
  refine ⟨?_, ?_, ?_, ?_⟩
  · intro i hi
    simp only [supported_modes, List.length_cons, List.length_nil] at hi
    interval_cases i <;>
      simp [imx585_update_hmax, hmodes, supported_modes, mode0, List.getD]
  · intro m' hm'
    simp only [imx585_update_hmax, hmodes, supported_modes, List.map_cons,
      List.map_nil, List.mem_cons, List.not_mem_nil, or_false] at hm'
    have hscale : (if s.lane_count = 2 then 2 else 1) = 2 ∨
        (if s.lane_count = 2 then 2 else 1) = 1 := by
      by_cases hl : s.lane_count = 2 <;> simp [hl]
    rcases hm' with h | h <;> subst h <;>
      constructor <;>
      first
      | (simp only [Nat.div_one]
         rcases hscale with h2 | h2 <;> rw [h2] <;> omega)
      | (cases hc : s.clear_HDR <;> simp [hc, IMX585_VMAX_DEFAULT])
  · intro i
    rcases i with _ | _ | i <;>
      simp [imx585_update_hmax, hmodes, supported_modes, mode0, List.getD] <;>
      omega
  · intro t h1 h2 h3 h4
    simp only [imx585_update_hmax, h1, h2, h3, h4, hmodes]

/-- Witness for C1: the hypotheses hold at the concrete state
`init_state`, and instantiating the theorem there gives the bound facts for
every recomputed mode. -/
theorem imx585_update_hmax_bounds_witness :
    init_state.modes = supported_modes ∧
    (init_state.lane_count = 2 ∨ init_state.lane_count = 4) ∧
    (∀ m' ∈ (imx585_update_hmax init_state).modes,
       0 < m'.min_HMAX ∧ (m'.min_VMAX = 2250 ∨ m'.min_VMAX = 4500)) :=
  ⟨rfl, Or.inr rfl,
    (imx585_update_hmax_bounds init_state rfl (Or.inr rfl)).2.1⟩

/-- C5: a powered exposure write of `e` issues a 3-byte SHR register write
of `(VMAX - e) & ~1u` - always even, equal to `VMAX - e` when that
difference is even and to `VMAX - e - 1` (rounded down to the nearest even
value) when it is odd. The hypotheses are what acceptance guarantees: `e`
is at most the published maximum (`VMAX` minus the minimum SHR margin) and
`VMAX` is a u32. -/
theorem imx585_set_ctrl_exposure_shr (s : Imx585) (e : Nat)
    (he : e + IMX585_SHR_MIN ≤ s.VMAX) (hv : s.VMAX < 2 ^ 32) :
    imx585_set_ctrl_exposure s e true =
      (s, [Ev.regWrite IMX585_REG_SHR 3 ((s.VMAX - e) - (s.VMAX - e) % 2)]) ∧
    ((s.VMAX - e) - (s.VMAX - e) % 2) % 2 = 0 ∧
    ((s.VMAX - e) % 2 = 0 → (s.VMAX - e) - (s.VMAX - e) % 2 = s.VMAX - e) ∧
    ((s.VMAX - e) % 2 = 1 → (s.VMAX - e) - (s.VMAX - e) % 2 = s.VMAX - e - 1) := by
  have hmask := and_not_one_u32_eq (s.VMAX - e) (by omega)
  refine ⟨?_, by omega, by omega, by omega⟩
  simp [imx585_set_ctrl_exposure, hmask]

/-- Witness for C5: at `init_state` (`VMAX = 2250`) an accepted exposure
write of 1000 produces the SHR register write 1250. -/
theorem imx585_set_ctrl_exposure_shr_witness :
    1000 + IMX585_SHR_MIN ≤ init_state.VMAX ∧ init_state.VMAX < 2 ^ 32 ∧
    imx585_set_ctrl_exposure init_state 1000 true =
      (init_state, [Ev.regWrite IMX585_REG_SHR 3 1250]) :=
  ⟨by decide, by decide, by
    have h := (imx585_set_ctrl_exposure_shr init_state 1000 (by decide) (by decide)).1
    exact h.trans (by decide)⟩

/-- C4: an accepted powered VBLANK write of `v` sets the live VMAX to
`(mode.height + v) & ~1u`, republishes the exposure range as
`[IMX585_EXPOSURE_MIN, VMAX - min_shr]` (HDR-dependent margin) with the
current exposure clamped into it, and the event list shows the range
publication happening strictly before the 3-byte VMAX register write;
hence the exposure maximum read back afterwards is
`(mode.height + v) & ~1u - SHR_MIN(_CLEARHDR)`. The hypotheses are what
acceptance guarantees: `v` is at least the published minimum
(`min_VMAX - height`, so `height + v` is at least `IMX585_VMAX_DEFAULT`)
and `height + v` fits in a u32. -/
theorem imx585_set_ctrl_vblank_roundtrip (s : Imx585) (v : Nat)
    (h1 : IMX585_VMAX_DEFAULT ≤ s.mode.height + v)
    (h2 : s.mode.height + v < 2 ^ 32) :
    (imx585_set_ctrl_vblank s v true).1.VMAX =
      (s.mode.height + v) - (s.mode.height + v) % 2 ∧
    (imx585_set_ctrl_vblank s v true).1.exposure.min = IMX585_EXPOSURE_MIN ∧
    (imx585_set_ctrl_vblank s v true).1.exposure.max =
      (s.mode.height + v) - (s.mode.height + v) % 2 -
        (if s.clear_HDR then IMX585_SHR_MIN_CLEARHDR else IMX585_SHR_MIN) ∧
    IMX585_EXPOSURE_MIN ≤ (imx585_set_ctrl_vblank s v true).1.exposure.cur ∧
    (imx585_set_ctrl_vblank s v true).1.exposure.cur ≤
      (imx585_set_ctrl_vblank s v true).1.exposure.max ∧
    (imx585_set_ctrl_vblank s v true).2 =
      [Ev.exposureRange IMX585_EXPOSURE_MIN
         ((imx585_set_ctrl_vblank s v true).1.exposure.max)
         ((imx585_set_ctrl_vblank s v true).1.exposure.cur),
       Ev.regWrite IMX585_REG_VMAX 3 ((imx585_set_ctrl_vblank s v true).1.VMAX)] := by
  have hmask := and_not_one_u32_eq (s.mode.height + v) h2
  have h1' : 2250 ≤ s.mode.height + v := h1
  cases hc : s.clear_HDR <;>
    simp [imx585_set_ctrl_vblank, v4l2_ctrl_modify_range, c_clamp, hc, hmask,
      IMX585_EXPOSURE_MIN, IMX585_SHR_MIN, IMX585_SHR_MIN_CLEARHDR] <;>
    omega

/-- Witness for C4: at `init_state` (1080p mode, HDR off) an accepted
VBLANK write of 1160 yields VMAX 2250 and exposure maximum 2242. -/
theorem imx585_set_ctrl_vblank_roundtrip_witness :
    IMX585_VMAX_DEFAULT ≤ init_state.mode.height + 1160 ∧
    init_state.mode.height + 1160 < 2 ^ 32 ∧
    (imx585_set_ctrl_vblank init_state 1160 true).1.VMAX = 2250 ∧
    (imx585_set_ctrl_vblank init_state 1160 true).1.exposure.max = 2242 := by
  have h := imx585_set_ctrl_vblank_roundtrip init_state 1160 (by decide) (by decide)
  exact ⟨by decide, by decide, h.1.trans (by decide), h.2.2.1.trans (by decide)⟩

/-- Counterexample to C2 as stated: `imx585_set_framing_limits` installs the
exposure maximum with `IMX585_SHR_MIN_CLEARHDR` even when HDR is off. At
`init_state` (HDR off, 1080p mode, default VMAX 2250) it publishes
exposure maximum 2240 = VMAX - 10, not VMAX - `IMX585_SHR_MIN` = 2242. -/
theorem imx585_set_framing_limits_shr_min_cex :
    init_state.clear_HDR = false ∧
    (imx585_set_framing_limits init_state).VMAX = 2250 ∧
    (imx585_set_framing_limits init_state).exposure.max = 2240 ∧
    (imx585_set_framing_limits init_state).exposure.max ≠
      (imx585_set_framing_limits init_state).VMAX - IMX585_SHR_MIN := by
  refine ⟨rfl, ?_, ?_, ?_⟩ <;> decide

/-- C2 (amended): after a powered VBLANK write the exposure maximum equals
the new VMAX minus the HDR-dependent margin (`IMX585_SHR_MIN_CLEARHDR`
under HDR, `IMX585_SHR_MIN` otherwise), while after
`imx585_set_framing_limits` it equals the new VMAX minus
`IMX585_SHR_MIN_CLEARHDR` regardless of HDR (imx585.c line 1481); in both
cases the current exposure lies within the published range. -/
theorem exposure_range_after_vmax_change (s : Imx585) (v : Nat)
    (h1 : IMX585_VMAX_DEFAULT ≤ s.mode.height + v)
    (h2 : s.mode.height + v < 2 ^ 32)
    (h3 : IMX585_EXPOSURE_MIN + IMX585_SHR_MIN_CLEARHDR ≤ s.mode.default_VMAX) :
    ((imx585_set_ctrl_vblank s v true).1.exposure.max =
       (imx585_set_ctrl_vblank s v true).1.VMAX -
         (if s.clear_HDR then IMX585_SHR_MIN_CLEARHDR else IMX585_SHR_MIN) ∧
     (imx585_set_ctrl_vblank s v true).1.exposure.min ≤
       (imx585_set_ctrl_vblank s v true).1.exposure.cur ∧
     (imx585_set_ctrl_vblank s v true).1.exposure.cur ≤
       (imx585_set_ctrl_vblank s v true).1.exposure.max) ∧
    ((imx585_set_framing_limits s).exposure.max =
       (imx585_set_framing_limits s).VMAX - IMX585_SHR_MIN_CLEARHDR ∧
     (imx585_set_framing_limits s).exposure.min ≤
       (imx585_set_framing_limits s).exposure.cur ∧
     (imx585_set_framing_limits s).exposure.cur ≤
       (imx585_set_framing_limits s).exposure.max) := by
  have hmask := and_not_one_u32_eq (s.mode.height + v) h2
  have h1' : 2250 ≤ s.mode.height + v := h1
  have h3' : 12 ≤ s.mode.default_VMAX := h3
  constructor
  · cases hc : s.clear_HDR <;>
      simp [imx585_set_ctrl_vblank, v4l2_ctrl_modify_range, c_clamp, hc, hmask,
        IMX585_EXPOSURE_MIN, IMX585_SHR_MIN, IMX585_SHR_MIN_CLEARHDR] <;>
      omega
  · simp [imx585_set_framing_limits, v4l2_ctrl_modify_range, v4l2_ctrl_s_ctrl,
      c_clamp, IMX585_EXPOSURE_MIN, IMX585_SHR_MIN_CLEARHDR]
    omega

/-- Witness for C2 (amended): the hypotheses hold at `init_state` with a
VBLANK write of 1160, and the framing-limit part instantiates there. -/
theorem exposure_range_after_vmax_change_witness :
    IMX585_VMAX_DEFAULT ≤ init_state.mode.height + 1160 ∧
    init_state.mode.height + 1160 < 2 ^ 32 ∧
    IMX585_EXPOSURE_MIN + IMX585_SHR_MIN_CLEARHDR ≤ init_state.mode.default_VMAX ∧
    (imx585_set_framing_limits init_state).exposure.max =
      (imx585_set_framing_limits init_state).VMAX - IMX585_SHR_MIN_CLEARHDR := by
  have h := exposure_range_after_vmax_change init_state 1160 (by decide) (by decide) (by decide)
  exact ⟨by decide, by decide, by decide, h.2.1⟩

/-- Counterexample to C3 as stated: enabling HDR does not force
`hgc` to false - the flag keeps its value and the published analogue-gain
range becomes `[34, 80]`, not `[0, 80]`. -/
theorem imx585_set_ctrl_wdr_hcg_cex :
    hcg_state.hgc = true ∧ hcg_state.clear_HDR = false ∧
    (imx585_set_ctrl_wdr hcg_state true).hgc = true ∧
    (imx585_set_ctrl_wdr hcg_state true).gain.min = IMX585_ANA_GAIN_MIN_HGC ∧
    (imx585_set_ctrl_wdr hcg_state true).gain.max = IMX585_ANA_GAIN_MAX_HDR := by
  refine ⟨rfl, rfl, ?_, ?_, ?_⟩ <;> decide

/-- Projection facts: `imx585_set_framing_limits` leaves the gain control
and the HDR/HCG bookkeeping untouched. -/
theorem imx585_set_framing_limits_gain (s : Imx585) :
    (imx585_set_framing_limits s).gain = s.gain := rfl

theorem imx585_set_framing_limits_hgc (s : Imx585) :
    (imx585_set_framing_limits s).hgc = s.hgc := rfl

theorem imx585_set_framing_limits_hgc_active (s : Imx585) :
    (imx585_set_framing_limits s).hgc_active = s.hgc_active := rfl

theorem imx585_set_framing_limits_clear_HDR (s : Imx585) :
    (imx585_set_framing_limits s).clear_HDR = s.clear_HDR := rfl

/-- Projection facts: `imx585_update_hmax` rewrites only the mode table. -/
theorem imx585_update_hmax_gain (s : Imx585) :
    (imx585_update_hmax s).gain = s.gain := rfl

theorem imx585_update_hmax_hgc (s : Imx585) :
    (imx585_update_hmax s).hgc = s.hgc := rfl

theorem imx585_update_hmax_hgc_active (s : Imx585) :
    (imx585_update_hmax s).hgc_active = s.hgc_active := rfl

theorem imx585_update_hmax_clear_HDR (s : Imx585) :
    (imx585_update_hmax s).clear_HDR = s.clear_HDR := rfl

/-- The gain range published by `imx585_update_gain_limits`: minimum 34
with HCG on and 0 otherwise, maximum 80 under HDR and 240 otherwise. -/
theorem imx585_update_gain_limits_min (s : Imx585) :
    (imx585_update_gain_limits s).gain.min =
      if s.hgc then IMX585_ANA_GAIN_MIN_HGC else IMX585_ANA_GAIN_MIN := by
  simp only [imx585_update_gain_limits, v4l2_ctrl_modify_range, v4l2_ctrl_s_ctrl]
  split <;> split <;> split <;> rfl

theorem imx585_update_gain_limits_max (s : Imx585) :
    (imx585_update_gain_limits s).gain.max =
      if s.clear_HDR then IMX585_ANA_GAIN_MAX_HDR else IMX585_ANA_GAIN_MAX_NORMAL := by
  simp only [imx585_update_gain_limits, v4l2_ctrl_modify_range, v4l2_ctrl_s_ctrl]
  split <;> split <;> split <;> rfl

theorem imx585_update_gain_limits_hgc (s : Imx585) :
    (imx585_update_gain_limits s).hgc = s.hgc := rfl

theorem imx585_update_gain_limits_hgc_active (s : Imx585) :
    (imx585_update_gain_limits s).hgc_active = s.hgc_active := rfl

theorem imx585_update_gain_limits_clear_HDR (s : Imx585) :
    (imx585_update_gain_limits s).clear_HDR = s.clear_HDR := rfl

/-- C3 (amended): writing the HDR toggle to enabled deactivates the HCG
control but leaves `hgc` at its previous value, so with HDR active the
published analogue-gain range is `[34, 80]` when HCG was enabled and
`[0, 80]` otherwise; writing the toggle to disabled reactivates the HCG
control with `hgc` still at its last value and gain maximum 240. After any
toggle, HDR-active and HCG-control-active are mutually exclusive. -/
theorem imx585_set_ctrl_wdr_mutex (s : Imx585) :
    (s.clear_HDR = false →
      (imx585_set_ctrl_wdr s true).clear_HDR = true ∧
      (imx585_set_ctrl_wdr s true).hgc_active = false ∧
      (imx585_set_ctrl_wdr s true).hgc = s.hgc ∧
      (imx585_set_ctrl_wdr s true).gain.max = IMX585_ANA_GAIN_MAX_HDR ∧
      (imx585_set_ctrl_wdr s true).gain.min =
        (if s.hgc then IMX585_ANA_GAIN_MIN_HGC else IMX585_ANA_GAIN_MIN)) ∧
    (s.clear_HDR = true →
      (imx585_set_ctrl_wdr s false).clear_HDR = false ∧
      (imx585_set_ctrl_wdr s false).hgc_active = true ∧
      (imx585_set_ctrl_wdr s false).hgc = s.hgc ∧
      (imx585_set_ctrl_wdr s false).gain.max = IMX585_ANA_GAIN_MAX_NORMAL ∧
      (imx585_set_ctrl_wdr s false).gain.min =
        (if s.hgc then IMX585_ANA_GAIN_MIN_HGC else IMX585_ANA_GAIN_MIN)) := by
  refine ⟨fun hc => ?_, fun hc => ?_⟩ <;>
    rw [imx585_set_ctrl_wdr] <;>
    simp only [hc, Bool.false_eq_true, Bool.true_eq_false, if_false, ite_false,
      imx585_set_framing_limits_gain, imx585_set_framing_limits_hgc,
      imx585_set_framing_limits_hgc_active, imx585_set_framing_limits_clear_HDR,
      imx585_update_hmax_gain, imx585_update_hmax_hgc, imx585_update_hmax_hgc_active,
      imx585_update_hmax_clear_HDR, imx585_update_gain_limits_min,
      imx585_update_gain_limits_max, imx585_update_gain_limits_hgc,
      imx585_update_gain_limits_hgc_active, imx585_update_gain_limits_clear_HDR,
      Bool.not_true, Bool.not_false, ite_true, and_self, and_true, true_and]

/-- Witness for C3 (amended): at `hcg_state` (HCG on, HDR off) enabling HDR
deactivates the HCG control while the HDR flag goes on. -/
theorem imx585_set_ctrl_wdr_mutex_witness :
    hcg_state.clear_HDR = false ∧
    (imx585_set_ctrl_wdr hcg_state true).clear_HDR = true ∧
    (imx585_set_ctrl_wdr hcg_state true).hgc_active = false :=
  ⟨rfl, ((imx585_set_ctrl_wdr_mutex hcg_state).1 rfl).1,
    ((imx585_set_ctrl_wdr_mutex hcg_state).1 rfl).2.1⟩

/-- C9 is violated by the code: with a mono sensor and a requested code
that is in no mono table entry (here SRGGB12), the scan loop of
`imx585_get_format_code` leaves its index equal to the table length, and
the C returns `mono_codes[2]` - one past the end of the 2-entry array
(modelled as `none`). The guard `if (i >= ARRAY_SIZE(...)) i = 0;` present
in comparable drivers is missing. -/
theorem imx585_get_format_code_oob :
    mono_codes.findIdx (fun c => c == MEDIA_BUS_FMT_SRGGB12_1X12) = mono_codes.length ∧
    imx585_get_format_code true false MEDIA_BUS_FMT_SRGGB12_1X12 = none := by
  refine ⟨?_, ?_⟩ <;> decide

/-- C6 is violated by the code: for a mono sensor with HDR off and
requested code Y16 the candidate mode list is empty, yet
`imx585_set_pad_format` does not return an invalid-argument error - it
passes the empty list to `v4l2_find_nearest_size`, which yields NULL
(`none`), dereferences it in `imx585_update_image_pad_format`, and returns
0. The format-code lookup itself succeeds (Y16 is a mono code), so the
combination is reachable. -/
theorem imx585_set_pad_format_empty_modes :
    get_mode_table mono_state.mono mono_state.clear_HDR MEDIA_BUS_FMT_Y16_1X16
      mono_state.modes = [] ∧
    imx585_get_format_code mono_state.mono mono_state.clear_HDR MEDIA_BUS_FMT_Y16_1X16 =
      some MEDIA_BUS_FMT_Y16_1X16 ∧
    imx585_set_pad_format mono_state
      { width := 3856, height := 2180, code := MEDIA_BUS_FMT_Y16_1X16 } =
      some (0, none, mono_state) := by
  refine ⟨?_, ?_, ?_⟩ <;> decide

set_option maxHeartbeats 3200000 in
/-- C7: if the streaming-enable transition returns a nonzero error (any
checked register write of the sequence failed), then streaming stays off,
the vflip/hflip/HDR grab flags are untouched, the power reference taken
for the transition was released exactly once (one get, one put), and the
returned value is the error of one of the failed writes. -/
theorem imx585_set_stream_fail_safe (s : Imx585) (fail : StreamStep → Option Int)
    (hs : s.streaming = false)
    (hret : (imx585_set_stream s true none fail).2.1 ≠ 0) :
    (imx585_set_stream s true none fail).1.streaming = false ∧
    (imx585_set_stream s true none fail).1.vflip_grabbed = s.vflip_grabbed ∧
    (imx585_set_stream s true none fail).1.hflip_grabbed = s.hflip_grabbed ∧
    (imx585_set_stream s true none fail).1.hdr_grabbed = s.hdr_grabbed ∧
    (imx585_set_stream s true none fail).2.2.1 = 1 ∧
    (imx585_set_stream s true none fail).2.2.2 = 1 ∧
    (∃ st, fail st = some ((imx585_set_stream s true none fail).2.1)) := by
  cases hc : s.common_regs_written <;>
  cases h1 : fail .commonRegs <;>
  cases h2 : fail .modeRegs <;>
  cases hdr' : s.clear_HDR <;>
  cases h3 : fail .hdrRegs <;>
  cases h4 : fail .normalRegs <;>
  cases h5 : fail .ctrlSetup <;>
  cases h6 : fail .modeSelect <;>
  simp [imx585_set_stream, imx585_start_streaming, hs, hc, h1, h2, hdr', h3, h4, h5, h6] at hret ⊢ <;>
  (try (split at hret <;> simp_all)) <;>
  first
  | exact ⟨.commonRegs, h1⟩
  | exact ⟨.modeRegs, h2⟩
  | exact ⟨.hdrRegs, h3⟩
  | exact ⟨.normalRegs, h4⟩
  | exact ⟨.ctrlSetup, h5⟩
  | exact ⟨.modeSelect, h6⟩

/-- Witness for C7: from `init_state` (not streaming), an enable whose
mode-register write fails returns a nonzero error, leaves streaming off
and takes and releases exactly one power reference. -/
theorem imx585_set_stream_fail_safe_witness :
    init_state.streaming = false ∧
    (imx585_set_stream init_state true none fail_modeRegs).2.1 ≠ 0 ∧
    (imx585_set_stream init_state true none fail_modeRegs).1.streaming = false ∧
    (imx585_set_stream init_state true none fail_modeRegs).2.2.1 = 1 ∧
    (imx585_set_stream init_state true none fail_modeRegs).2.2.2 = 1 := by
  have h := imx585_set_stream_fail_safe init_state fail_modeRegs rfl (by decide)
  exact ⟨rfl, by decide, h.1, h.2.2.2.2.1, h.2.2.2.2.2.1⟩

set_option maxHeartbeats 3200000 in
/-- State effect of `imx585_start_streaming`: the only mutated field is
`common_regs_written`, set exactly when it was false and the
common-register block write succeeded. -/
theorem imx585_start_streaming_state (s : Imx585) (fail : StreamStep → Option Int) :
    (imx585_start_streaming s fail).1 =
      if s.common_regs_written = false ∧ fail .commonRegs = none
      then { s with common_regs_written := true } else s := by
  cases hc : s.common_regs_written <;>
  cases h1 : fail .commonRegs <;>
  cases h2 : fail .modeRegs <;>
  cases hdr' : s.clear_HDR <;>
  cases h3 : fail .hdrRegs <;>
  cases h4 : fail .normalRegs <;>
  cases h5 : fail .ctrlSetup <;>
  cases h6 : fail .modeSelect <;>
  simp [imx585_start_streaming, hc, h1, h2, hdr', h3, h4, h5, h6]

/-- Once the common registers are written, any sequence of
streaming-enable attempts (no power-off) performs no further
common-register writes. -/
theorem commonWriteCount_of_written (ops : List DevOp) :
    ∀ s : Imx585, s.common_regs_written = true →
      (∀ op ∈ ops, op.isStart = true) → commonWriteCount s ops = 0 := by
  induction ops with
  | nil => intro s _ _; rfl
  | cons op rest ih =>
    intro s hs hall
    cases op with
    | powerOff =>
      have := hall _ (List.Mem.head _)
      simp [DevOp.isStart] at this
    | startStream fail =>
      have hstate := imx585_start_streaming_state s fail
      rw [hs] at hstate
      simp only [Bool.true_eq_false, false_and, if_false] at hstate
      have htail : ∀ op ∈ rest, op.isStart = true :=
        fun op hop => hall op (List.Mem.tail _ hop)
      simp only [commonWriteCount, hs, if_true, hstate]
      simpa using ih s hs htail

/-- C8: the common-register block is written by `imx585_start_streaming`
exactly when `common_regs_written` is false; a successful block write sets
the flag and a failed one returns its error and leaves the flag clear;
with the flag set, `imx585_start_streaming` leaves the state untouched;
`imx585_power_off` always clears the flag; and across any power cycle
(a power-off followed by streaming-enable attempts whose common-block
writes succeed) the block is written exactly once as soon as there is at
least one enable attempt. -/
theorem common_regs_once_per_power_cycle :
    (∀ (s : Imx585) (fail : StreamStep → Option Int),
       commonWriteCount s [DevOp.startStream fail] =
         if s.common_regs_written then 0 else 1) ∧
    (∀ s : Imx585, (imx585_power_off s).common_regs_written = false) ∧
    (∀ (s : Imx585) (fail : StreamStep → Option Int),
       s.common_regs_written = false → fail .commonRegs = none →
       (imx585_start_streaming s fail).1.common_regs_written = true) ∧
    (∀ (s : Imx585) (fail : StreamStep → Option Int) (e : Int),
       s.common_regs_written = false → fail .commonRegs = some e →
       (imx585_start_streaming s fail).2 = e ∧
       (imx585_start_streaming s fail).1.common_regs_written = false) ∧
    (∀ (s : Imx585) (fail : StreamStep → Option Int),
       s.common_regs_written = true → (imx585_start_streaming s fail).1 = s) ∧
    (∀ (s : Imx585) (ops : List DevOp),
       (∀ op ∈ ops, op.isStart = true ∧ op.commonOk) →
       commonWriteCount (imx585_power_off s) ops = min 1 ops.length) := by
  refine ⟨?_, ?_, ?_, ?_, ?_, ?_⟩
  · intro s fail
    simp [commonWriteCount]
  · intro s
    rfl
  · intro s fail hc h1
    rw [imx585_start_streaming_state s fail, hc, h1]
    simp
  · intro s fail e hc h1
    constructor
    · simp [imx585_start_streaming, hc, h1]
    · rw [imx585_start_streaming_state s fail, hc, h1]
      simpa using hc
  · intro s fail hc
    rw [imx585_start_streaming_state s fail, hc]
    simp
  · intro s ops hall
    cases ops with
    | nil => rfl
    | cons op rest =>
      have hop := hall _ (List.Mem.head _)
      cases op with
      | powerOff => simp [DevOp.isStart] at hop
      | startStream fail =>
        have hok : fail .commonRegs = none := hop.2
        have hstate := imx585_start_streaming_state (imx585_power_off s) fail
        simp only [imx585_power_off, hok, and_true, if_true] at hstate
        simp only [commonWriteCount, imx585_power_off, Bool.false_eq_true, if_false,
          hstate]
        have hrest : commonWriteCount
            { s with common_regs_written := true } rest = 0 := by
          apply commonWriteCount_of_written
          · rfl
          · exact fun op hop2 => (hall op (List.Mem.tail _ hop2)).1
        rw [hrest]
        simp [Nat.min_def]

/-- Witness for C8: after a power-off from `init_state`, two consecutive
failure-free enable attempts write the common register block exactly
once. -/
theorem common_regs_once_per_power_cycle_witness :
    (∀ op ∈ [DevOp.startStream ok_oracle, DevOp.startStream ok_oracle],
       op.isStart = true ∧ op.commonOk) ∧
    commonWriteCount (imx585_power_off init_state)
      [DevOp.startStream ok_oracle, DevOp.startStream ok_oracle] = 1 := by
  have hall : ∀ op ∈ [DevOp.startStream ok_oracle, DevOp.startStream ok_oracle],
      op.isStart = true ∧ op.commonOk := by
    intro op hop
    cases hop with
    | head => exact ⟨rfl, rfl⟩
    | tail _ hop2 =>
      cases hop2 with
      | head => exact ⟨rfl, rfl⟩
      | tail _ hop3 => cases hop3
  have h := common_regs_once_per_power_cycle.2.2.2.2.2 init_state
    [DevOp.startStream ok_oracle, DevOp.startStream ok_oracle] hall
  exact ⟨hall, h.trans (by norm_num)⟩

/-- The horizontal-blanking maximum published by
`imx585_set_framing_limits` for the current mode. -/
theorem imx585_set_framing_limits_hblank_max (s : Imx585) :
    (imx585_set_framing_limits s).hblank.max =
      IMX585_HMAX_MAX * (s.mode.width * IMX585_PIXEL_RATE / s.mode.min_HMAX) /
        IMX585_PIXEL_RATE - s.mode.width := rfl

/-- C10: for every hblank value inside the range published by
`imx585_set_framing_limits` (0 up to `HMAX_MAX * pixel_rate / PIXEL_RATE -
width`, with `pixel_rate = width * PIXEL_RATE / min_HMAX`), the HMAX value
the HBLANK handler computes, `(width + hblank) * PIXEL_RATE / pixel_rate`,
is at most 0xFFFF, so the u16 store and the 2-byte register write lose no
bits. The first part proves it for any mode whose `min_HMAX` is positive,
at most 65534 and whose square is at most `width * PIXEL_RATE`; the second
and third parts show every mode of every reachable table satisfies those
side conditions - both the static `supported_modes` and the output of
`imx585_update_hmax` for every supported configuration (lane count 2 or 4,
any link frequency, HDR on or off), including the 2-lane low-frequency
states where `min_HMAX` exceeds the FHD width. -/
theorem imx585_set_ctrl_hblank_fits :
    (∀ (s : Imx585) (h : Nat),
       0 < s.mode.min_HMAX →
       s.mode.min_HMAX ≤ 65534 →
       s.mode.min_HMAX * s.mode.min_HMAX ≤ s.mode.width * IMX585_PIXEL_RATE →
       h ≤ (imx585_set_framing_limits s).hblank.max →
       (s.mode.width + h) * IMX585_PIXEL_RATE /
           (s.mode.width * IMX585_PIXEL_RATE / s.mode.min_HMAX) ≤ IMX585_HMAX_MAX ∧
       (imx585_set_ctrl_hblank s h true).1.HMAX =
         (s.mode.width + h) * IMX585_PIXEL_RATE /
           (s.mode.width * IMX585_PIXEL_RATE / s.mode.min_HMAX) ∧
       (imx585_set_ctrl_hblank s h true).2 =
         [Ev.regWrite IMX585_REG_HMAX 2 ((imx585_set_ctrl_hblank s h true).1.HMAX)]) ∧
    (∀ s : Imx585, s.modes = supported_modes →
       (s.lane_count = 2 ∨ s.lane_count = 4) →
       ∀ m' ∈ (imx585_update_hmax s).modes,
         0 < m'.min_HMAX ∧ m'.min_HMAX ≤ 65534 ∧
         m'.min_HMAX * m'.min_HMAX ≤ m'.width * IMX585_PIXEL_RATE) ∧
    (∀ m ∈ supported_modes,
       0 < m.min_HMAX ∧ m.min_HMAX ≤ 65534 ∧
       m.min_HMAX * m.min_HMAX ≤ m.width * IMX585_PIXEL_RATE) := by
  refine ⟨?_, ?_, ?_⟩
  · intro s h hM hM65 hMsq hh
    set W := s.mode.width with hWdef
    set M := s.mode.min_HMAX with hMdef
    set R := IMX585_PIXEL_RATE with hRdef
    set P := W * R / M with hPdef
    have hR0 : 0 < R := by rw [hRdef, IMX585_PIXEL_RATE]; norm_num
    have hHM65 : IMX585_HMAX_MAX = 65535 := rfl
    have hMP : M ≤ P := by
      rw [hPdef]
      exact (Nat.le_div_iff_mul_le hM).mpr hMsq
    have hP0 : 0 < P := lt_of_lt_of_le hM hMP
    have hdm := Nat.div_add_mod (W * R) M
    have hrem : W * R % M < M := Nat.mod_lt _ hM
    have hMulP : M * P ≤ 65534 * P := Nat.mul_le_mul_right P hM65
    have hWR : W * R ≤ 65535 * P := by
      rw [← hPdef] at hdm
      omega
    have hW : W ≤ 65535 * P / R := (Nat.le_div_iff_mul_le hR0).mpr hWR
    rw [imx585_set_framing_limits_hblank_max] at hh
    rw [← hWdef, ← hMdef, ← hRdef] at hh
    rw [← hPdef] at hh
    rw [hHM65] at hh
    have hWh : W + h ≤ 65535 * P / R := by omega
    have hmul : (W + h) * R ≤ 65535 * P := (Nat.le_div_iff_mul_le hR0).mp hWh
    have hfin : (W + h) * R / P ≤ IMX585_HMAX_MAX := by
      have hd := Nat.div_le_div_right (c := P) hmul
      rw [Nat.mul_div_cancel _ hP0] at hd
      omega
    have hmod : ((W + h) * R / P) % 2 ^ 16 = (W + h) * R / P := by
      have h16 : (2 : Nat) ^ 16 = 65536 := by norm_num
      apply Nat.mod_eq_of_lt
      omega
    refine ⟨hfin, ?_, ?_⟩ <;>
      simp [imx585_set_ctrl_hblank, hmod, ← hWdef, ← hMdef, ← hRdef, ← hPdef] <;>
      omega
  · intro s hmodes hlane m' hm'
    have hall : ∀ j : Fin 8, 396 ≤ HMAX_table_4lane_4K.getD j.val 0 ∧
        HMAX_table_4lane_4K.getD j.val 0 ≤ 1584 := by decide
    obtain ⟨hb1, hb2⟩ := hall s.link_freq_idx
    have hscale : (if s.lane_count = 2 then (2 : Nat) else 1) ≤ 2 ∧
        1 ≤ (if s.lane_count = 2 then (2 : Nat) else 1) := by
      by_cases hl : s.lane_count = 2 <;> simp [hl]
    obtain ⟨hs2, hs1⟩ := hscale
    set b := HMAX_table_4lane_4K.getD s.link_freq_idx.val 0 with hbdef
    set q := (if s.lane_count = 2 then (2 : Nat) else 1) with hqdef
    have hbq : b * q ≤ 3168 := by
      calc b * q ≤ 1584 * 2 := Nat.mul_le_mul hb2 hs2
        _ = 3168 := by norm_num
    have hbq1 : 0 < b * q := Nat.mul_pos (by omega) (by omega)
    have hsq : b * q * (b * q) ≤ 1928 * IMX585_PIXEL_RATE := by
      calc b * q * (b * q) ≤ 3168 * 3168 := Nat.mul_le_mul hbq hbq
        _ ≤ 1928 * IMX585_PIXEL_RATE := by norm_num [IMX585_PIXEL_RATE]
    simp only [imx585_update_hmax, hmodes, supported_modes, List.map_cons,
      List.map_nil, List.mem_cons, List.not_mem_nil, or_false, ← hbdef,
      ← hqdef] at hm'
    rcases hm' with h | h <;> subst h <;>
      simp only [Nat.div_one] <;>
      refine ⟨?_, ?_, ?_⟩ <;>
      first
        | omega
        | exact hsq
        | exact le_trans hsq (by norm_num [IMX585_PIXEL_RATE])
  · decide

/-- Witness for C10: at the reviewer-relevant reachable configuration
(2 lanes, 297 MHz link, current mode FHD with `min_HMAX = 3168 > 1928 =
width`) an hblank of 100 is inside the published range, the side
conditions hold, and the computed HMAX fits in 16 bits. -/
theorem imx585_set_ctrl_hblank_fits_witness :
    0 < fhd_2lane_state.mode.min_HMAX ∧
    fhd_2lane_state.mode.min_HMAX ≤ 65534 ∧
    fhd_2lane_state.mode.min_HMAX * fhd_2lane_state.mode.min_HMAX ≤
      fhd_2lane_state.mode.width * IMX585_PIXEL_RATE ∧
    fhd_2lane_state.mode.width < fhd_2lane_state.mode.min_HMAX ∧
    100 ≤ (imx585_set_framing_limits fhd_2lane_state).hblank.max ∧
    (imx585_set_ctrl_hblank fhd_2lane_state 100 true).1.HMAX ≤ IMX585_HMAX_MAX := by
  have h := imx585_set_ctrl_hblank_fits.1 fhd_2lane_state 100 (by decide) (by decide)
    (by decide) (by decide)
  exact ⟨by decide, by decide, by decide, by decide, by decide,
    by rw [h.2.1]; exact h.1⟩
